import Mathlib

/-!
Verification of the CPU simulator skeleton (src/cpu/src/lib.rs) against its
natural-language specification.

The source file defines a constant `DRAM_SIZE`, a `Cpu` state record
(32 general registers, a program counter, and a DRAM byte vector), and a
constructor `Cpu::new` that zero-initializes the registers, sets register 2
to `DRAM_SIZE`, sets `pc` to 0, and takes the supplied image vector as the
DRAM contents.  The register-file `read`/`write` accessors described by the
specification have no body in the source (only the `regs` field is declared),
so they are modelled here from the specification's words and marked as such.
-/

/-- The configured DRAM capacity in bytes.
Source: `pub const DRAM_SIZE: u64 = 1024 * 1024 * 128;`. -/
def DRAM_SIZE : Nat := 1024 * 1024 * 128

/-- A byte value, the element type of the DRAM vector (Rust `u8`). -/
abbrev Byte := Fin 256

/-- The simulator state.
Source: `struct Cpu { regs: [u64; 32], pc: u64, dram: Vec<u8> }`.
Register values are `u64`; no arithmetic is performed on them in the source,
so they are embedded as `Nat`. -/
structure Cpu where
  regs : Fin 32 → Nat
  pc : Nat
  dram : List Byte

/-- The constructor.
Source: `Cpu::new(code: Vec<u8>)` builds `regs = [0; 32]` then sets
`regs[2] = DRAM_SIZE`, and returns `Self { regs, pc: 0, dram: code }`. -/
def Cpu.new (code : List Byte) : Cpu :=
  { regs := Function.update (fun _ => 0) 2 DRAM_SIZE
    pc := 0
    dram := code }

/-- Modelled from the spec: the Register File `read` accessor, absent from
src/ (only the `regs` field declaration exists).  Spec 4.1: "read(index) ->
u64: returns 0 if index == 0; else returns stored value.  Never fails". -/
def Cpu.read (c : Cpu) (index : Fin 32) : Nat :=
  if index.val = 0 then 0 else c.regs index

/-- Modelled from the spec: the Register File `write` accessor, absent from
src/ (only the `regs` field declaration exists).  Spec 4.1: "write(index,
value): no-op if index == 0; else stores value.  Never fails". -/
def Cpu.write (c : Cpu) (index : Fin 32) (value : Nat) : Cpu :=
  if index.val = 0 then c
  else { c with regs := Function.update c.regs index value }

/-- Claim C5: the configured memory capacity constant is 128 MiB:
`DRAM_SIZE = 1024 * 1024 * 128 = 134217728` bytes. -/
theorem dram_size_is_128MiB : DRAM_SIZE = 134217728 := rfl

/-- Claim C3: construction initializes every general register to zero except
register index 2, which is initialized to `DRAM_SIZE`, and initializes the
program counter to 0. -/
theorem new_init_registers (image : List Byte) :
    (Cpu.new image).pc = 0 ∧
      ∀ i : Fin 32, (Cpu.new image).regs i =
        if i.val = 2 then DRAM_SIZE else 0 := by
  refine ⟨rfl, fun i => ?_⟩
  by_cases h : i = (2 : Fin 32)
  · subst h
    simp [Cpu.new, Function.update_apply]
  · have hv : i.val ≠ 2 := fun hv => h (Fin.ext hv)
    simp [Cpu.new, Function.update_apply, h, hv]

/-- Claim C8: after construction the backing memory is exactly the supplied
image vector: `dram = image`, hence the same length and the same byte at
every index; no zero-filled region beyond the image exists. -/
theorem new_dram_eq_image (image : List Byte) :
    (Cpu.new image).dram = image ∧
      (Cpu.new image).dram.length = image.length :=
  ⟨rfl, rfl⟩

/-- Counterexample to claim C1 as stated: with the empty image the
constructed memory has length 0, not `DRAM_SIZE`. -/
theorem new_dram_length_ne_dram_size :
    (Cpu.new []).dram.length ≠ DRAM_SIZE := by decide

/-- Claim C1 (amended): after construction the memory is exactly the
supplied image: its length equals the image length (not `DRAM_SIZE`) and its
byte at every index `i < len(image)` equals the image byte there; no
zero-filled tail is allocated. -/
theorem new_dram_matches_image (image : List Byte) (i : Nat)
    (h : i < image.length) :
    (Cpu.new image).dram.length = image.length ∧
      (Cpu.new image).dram.get ⟨i, h⟩ = image.get ⟨i, h⟩ :=
  ⟨rfl, rfl⟩

/-- Witness for the amended claim C1 at the one-byte image `[7]`. -/
theorem new_dram_matches_image_witness :
    0 < [(7 : Byte)].length ∧
      ((Cpu.new [(7 : Byte)]).dram.length = [(7 : Byte)].length ∧
        (Cpu.new [(7 : Byte)]).dram.get ⟨0, by decide⟩ =
          [(7 : Byte)].get ⟨0, by decide⟩) :=
  ⟨by decide, new_dram_matches_image [(7 : Byte)] 0 (by decide)⟩

/-- Counterexample to claim C2 as stated: an image one byte longer than
`DRAM_SIZE` is accepted; construction still produces an engine, so `new`
does not fail with `ImageTooLarge` on oversized images. -/
theorem new_accepts_oversized_image :
    (List.replicate (DRAM_SIZE + 1) (0 : Byte)).length > DRAM_SIZE ∧
      ∃ c : Cpu, Cpu.new (List.replicate (DRAM_SIZE + 1) (0 : Byte)) = c := by
  constructor
  · rw [List.length_replicate]
    exact Nat.lt_succ_self _
  · exact ⟨_, rfl⟩

/-- Claim C2 (amended): construction performs no size validation at all:
for every image whose length exceeds `DRAM_SIZE`, `new` still produces an
engine (there is no `ImageTooLarge` failure path). -/
theorem new_no_size_check (image : List Byte)
    (h : image.length > DRAM_SIZE) :
    ∃ c : Cpu, Cpu.new image = c :=
  ⟨_, rfl⟩

/-- Witness for the amended claim C2 at an image of length `DRAM_SIZE + 2`. -/
theorem new_no_size_check_witness :
    (List.replicate (DRAM_SIZE + 2) (0 : Byte)).length > DRAM_SIZE ∧
      ∃ c : Cpu, Cpu.new (List.replicate (DRAM_SIZE + 2) (0 : Byte)) = c := by
  have h : (List.replicate (DRAM_SIZE + 2) (0 : Byte)).length > DRAM_SIZE := by
    rw [List.length_replicate]
    exact Nat.lt_add_of_pos_right (by decide)
  exact ⟨h, new_no_size_check _ h⟩

/-- Claim C4: the stored value of general register 0 is zero in the initial
state produced by construction, and is preserved by every operation on the
state (the modelled register-file `write`; `read` does not mutate). -/
theorem gpr0_zero_invariant :
    (∀ image : List Byte, (Cpu.new image).regs 0 = 0) ∧
      ∀ (c : Cpu) (i : Fin 32) (v : Nat),
        c.regs 0 = 0 → (c.write i v).regs 0 = 0 := by
  constructor
  · intro image
    simp [Cpu.new, Function.update_apply]
  · intro c i v h
    unfold Cpu.write
    by_cases hi : i.val = 0
    · simp [hi, h]
    · have h0 : (0 : Fin 32) ≠ i := by
        intro he
        exact hi (by rw [← he]; decide)
      simp [hi, Function.update_apply, h0, h]

/-- Witness for claim C4: register 0 is zero after construction from the
empty image and stays zero after a write to register 3. -/
theorem gpr0_zero_invariant_witness :
    (Cpu.new []).regs 0 = 0 ∧ ((Cpu.new []).write 3 7).regs 0 = 0 :=
  ⟨gpr0_zero_invariant.1 [],
    gpr0_zero_invariant.2 (Cpu.new []) 3 7 (gpr0_zero_invariant.1 [])⟩

/-- Claim C6: the register-file read/write contract: for every index other
than 0, writing `v` then reading that index yields `v`; for index 0, writing
any value then reading yields 0.  Both operations are total functions, so
neither ever fails. -/
theorem regfile_read_write (c : Cpu) (index : Fin 32) (v w : Nat)
    (h : index.val ≠ 0) :
    (c.write index v).read index = v ∧ (c.write 0 w).read 0 = 0 := by
  constructor
  · simp [Cpu.write, Cpu.read, h, Function.update_apply]
  · simp [Cpu.write, Cpu.read]

/-- Witness for claim C6 at index 1 with values 5 and 9. -/
theorem regfile_read_write_witness :
    (1 : Fin 32).val ≠ 0 ∧
      (((Cpu.new []).write 1 5).read 1 = 5 ∧
        ((Cpu.new []).write 0 9).read 0 = 0) :=
  ⟨by decide, regfile_read_write (Cpu.new []) 1 5 9 (by decide)⟩

/-- Claim C9: for every image shorter than `DRAM_SIZE`, the initial stack
pointer `regs[2]` (which equals `DRAM_SIZE`) is strictly greater than the
length of the constructed memory, so it addresses a location outside the
backing array. -/
theorem new_sp_outside_dram (image : List Byte)
    (h : image.length < DRAM_SIZE) :
    (Cpu.new image).dram.length < (Cpu.new image).regs 2 := by
  have h2 : (Cpu.new image).regs 2 = DRAM_SIZE := by
    simp [Cpu.new, Function.update_apply]
  rw [h2]
  exact h

/-- Witness for claim C9 at the empty image. -/
theorem new_sp_outside_dram_witness :
    ([] : List Byte).length < DRAM_SIZE ∧
      (Cpu.new []).dram.length < (Cpu.new []).regs 2 :=
  ⟨by decide, new_sp_outside_dram [] (by decide)⟩

/-- Claim C10: construction is total: for every byte sequence, including
sequences longer than `DRAM_SIZE`, `new` produces an engine whose memory has
the image's length; no size validation is performed anywhere. -/
theorem new_total (image : List Byte) :
    ∃ c : Cpu, Cpu.new image = c ∧ c.dram.length = image.length :=
  ⟨_, rfl, rfl⟩
